import Mathlib

/-!
Shallow embedding of the ThreadNews client (a React news-aggregation page).
The embedded pieces are, in source order:

* the environment/token resolution (`GNEWS_TOKEN`),
* the vote-bar transition functions (`upClick`, `downClick`),
* the article mapper (`mapGNews`) including its favicon-domain and
  article-age derivations,
* the paginated fetch helper (`fetchGNews`), and
* the feed state machine of the `NewsFeed` component (`threadReset`,
  `loadStart`, `loadResume`).

JavaScript platform functions that the source calls are modelled as
explicit parameters or small total functions:

* `new URL(u).hostname`, which throws on a malformed URL, is modelled by a
  parameter `parseHost : String → Option String` (`none` means the
  constructor throws); the concrete `urlHostname` below is a faithful
  model for http/https URLs and for strings with no scheme at all.
* `new Date(s).getTime()`, which yields `NaN` on an unparseable date, is
  modelled by a parameter `parseDate : String → Option Int` (`none`
  means `NaN`); `NaN` propagation through subtraction, division,
  `Math.round` and `Math.max` is modelled on `Option Int`.
* JavaScript exceptions are modelled with `Except String`, the error
  string being the thrown message.
-/

/-! ### Environment and token resolution -/

/-- JavaScript `a || b` on an optional string: `a` is used when it is
present and truthy (non-empty), otherwise `b`. -/
def orElseStr (a : Option String) (b : String) : String :=
  match a with
  | some s => if s = "" then b else s
  | none => b

/-- The hardcoded fallback credential embedded in the source. -/
def defaultToken : String := "398eff08263b1e6180096acb4ab68a01"

/-- Token resolution: `env.NEXT_PUBLIC_GNEWS_TOKEN || env.GNEWS_TOKEN ||
"398eff08263b1e6180096acb4ab68a01"`, as a function of the two environment
slots. -/
def GNEWS_TOKEN (envA envB : Option String) : String :=
  orElseStr envA (orElseStr envB defaultToken)

/-- The fixed page size requested from the API. -/
def PAGE_SIZE : Nat := 10

/-! ### Vote bar -/

/-- Vote direction state: `"up"`, `"down"` or `null`. -/
inductive VDir where
  | up
  | down
  | null
deriving Repr, DecidableEq

/-- State of one `VoteBar` widget: current count and current direction. -/
structure VoteState where
  votes : Int
  dir : VDir
deriving Repr, DecidableEq

/-- The `up` click handler: `setVotes(v => v + (dir === "up" ? -1 : dir ===
"down" ? 2 : 1)); setDir(d => (d === "up" ? null : "up"))`. -/
def upClick (s : VoteState) : VoteState :=
  { votes := s.votes + (if s.dir = VDir.up then -1 else if s.dir = VDir.down then 2 else 1),
    dir := if s.dir = VDir.up then VDir.null else VDir.up }

/-- The `down` click handler: `setVotes(v => v + (dir === "down" ? 1 : dir
=== "up" ? -2 : -1)); setDir(d => (d === "down" ? null : "down"))`. -/
def downClick (s : VoteState) : VoteState :=
  { votes := s.votes + (if s.dir = VDir.down then 1 else if s.dir = VDir.up then -2 else -1),
    dir := if s.dir = VDir.down then VDir.null else VDir.down }

/-! ### Data shapes -/

/-- The `source` sub-record of a raw GNews article. -/
structure GSource where
  name : Option String := none
  url : Option String := none
deriving Repr, DecidableEq

/-- A raw GNews article record; every field is optional. -/
structure GNewsArticle where
  title : Option String := none
  url : Option String := none
  image : Option String := none
  source : Option GSource := none
  publishedAt : Option String := none
deriving Repr, DecidableEq

/-- The normalized display record produced by the mapper. -/
structure NewsItem where
  id : String
  title : String
  url : String
  favicon : String
  thumbnail : Option String
  comments : Nat
  votes : Int
  age : String
  thread : String
deriving Repr, DecidableEq

/-! ### Article mapper -/

/-- Characters that end the host part of a URL. -/
def hostEnd (c : Char) : Bool :=
  c == '/' || c == ':' || c == '?' || c == '#'

/-- Concrete model of `new URL(u).hostname` for http(s) URLs: the scheme
prefix is stripped and the host runs to the first `/`, `:`, `?` or `#`;
a string with neither scheme makes the `URL` constructor throw (`none`).
-/
def urlHostname (u : String) : Option String :=
  if u.data.take 8 = "https://".data then
    some (String.mk ((u.data.drop 8).takeWhile fun c => !hostEnd c))
  else if u.data.take 7 = "http://".data then
    some (String.mk ((u.data.drop 7).takeWhile fun c => !hostEnd c))
  else
    none

/-- JavaScript `Math.round((now - t) / 36e5)` on an exact millisecond
difference: `Math.round` is floor of the argument plus one half, so the
value is `⌊(2 * diffMs + 3600000) / 7200000⌋` (floor division). -/
def jsRoundHours (diffMs : Int) : Int :=
  Int.fdiv (2 * diffMs + 3600000) 7200000

/-- Millisecond timestamp of `new Date(publishedAt).getTime()` after the
destructuring default `publishedAt = new Date().toISOString()`: an absent
field is the current time, a present field goes through date parsing and
`none` models `NaN`. -/
def pubTime (parseDate : String → Option Int) (now : Int) (ps : Option String) : Option Int :=
  match ps with
  | some s => parseDate s
  | none => some now

/-- The mapper's age computation `Math.max(1, Math.round((Date.now() - new
Date(publishedAt).getTime()) / 36e5))`; a `NaN` timestamp propagates
through the subtraction, the division, `Math.round` and `Math.max`. -/
def ageHours (parseDate : String → Option Int) (now : Int) (ps : Option String) : Option Int :=
  match pubTime parseDate now ps with
  | some t => some (max 1 (jsRoundHours (now - t)))
  | none => none

/-- Template rendering of the age: an integer prints as itself and `NaN`
prints as `NaN`, followed by `h ago`. -/
def ageLabel (x : Option Int) : String :=
  (match x with
   | some n => toString n
   | none => "NaN") ++ "h ago"

/-- Domain resolution `source.url || (url && url !== "#" ? new
URL(url).hostname : "")`: a present non-empty `source.url` wins; otherwise
a truthy, non-placeholder article URL is parsed (a parse failure is a
thrown `TypeError`); otherwise the domain is empty. -/
def domainOf (parseHost : String → Option String) (srcUrl : String) (url : String) :
    Except String String :=
  if srcUrl ≠ "" then Except.ok srcUrl
  else if url ≠ "" ∧ url ≠ "#" then
    match parseHost url with
    | some h => Except.ok h
    | none => Except.error "TypeError: Invalid URL"
  else Except.ok ""

/-- The article mapper `mapGNews(a, idx, topic)`: destructuring defaults
for every field, favicon derivation from the resolved domain, age label,
and identifier `` `${topic}-${idx}` ``. -/
def mapGNews (parseHost : String → Option String) (parseDate : String → Option Int)
    (now : Int) (a : GNewsArticle) (idx : Nat) (topic : String) : Except String NewsItem := do
  let title := a.title.getD "Untitled"
  let url := a.url.getD "#"
  let image := a.image
  let source := a.source.getD {}
  let domain ← domainOf parseHost (source.url.getD "") url
  let favicon := if domain ≠ "" then "https://www.google.com/s2/favicons?domain=" ++ domain else ""
  Except.ok
    { id := topic ++ "-" ++ toString idx
      title := title
      url := url
      favicon := favicon
      thumbnail := image
      comments := 0
      votes := 0
      age := ageLabel (ageHours parseDate now a.publishedAt)
      thread := topic }

/-! ### Fetch helper -/

/-- The part of an HTTP response that `fetchGNews` inspects: `res.ok`,
`res.status`, and the `articles` field of the JSON body (absent or null
modelled as `none`). -/
structure HttpResp where
  ok : Bool
  status : Nat
  articles : Option (List GNewsArticle)
deriving Repr, DecidableEq

/-- JavaScript `arts.map((a, idx) => ...)` with a throwing callback: the
callback runs left to right on the absolute index and the first thrown
exception propagates out of `map`. -/
def mapArticles (f : GNewsArticle → Nat → Except String NewsItem) :
    List GNewsArticle → Nat → Except String (List NewsItem)
  | [], _ => Except.ok []
  | a :: as, i => do
      let b ← f a i
      let bs ← mapArticles f as (i + 1)
      Except.ok (b :: bs)

/-- The fetch helper `fetchGNews({page, thread})` as a function of the
response the network produced: the token guard throws `Missing GNEWS_TOKEN
env var` first, a non-ok response throws `` `Network ${res.status}` ``,
and otherwise `json.articles || []` is mapped through `mapGNews` with
absolute index `(page - 1) * PAGE_SIZE + idx` and topic `thread || "all"`.
-/
def fetchGNews (parseHost : String → Option String) (parseDate : String → Option Int)
    (now : Int) (token : String) (page : Nat) (thread : Option String) (resp : HttpResp) :
    Except String (List NewsItem) :=
  if token = "" then Except.error "Missing GNEWS_TOKEN env var"
  else if resp.ok = false then Except.error ("Network " ++ toString resp.status)
  else
    mapArticles
      (fun a i => mapGNews parseHost parseDate now a i (orElseStr thread "all"))
      (resp.articles.getD []) ((page - 1) * PAGE_SIZE)

/-! ### Feed state machine -/

/-- The five state hooks of the `NewsFeed` component. -/
structure FeedState where
  items : List NewsItem
  page : Nat
  loading : Bool
  error : Option String
  hasMore : Bool
deriving Repr, DecidableEq

/-- The thread-change effect: `setItems([]); setPage(1); setHasMore(true)`.
-/
def threadReset (s : FeedState) : FeedState :=
  { s with items := [], page := 1, hasMore := true }

/-- The pre-await part of the load effect: `setLoading(true);
setError(null)`. -/
def loadStart (s : FeedState) : FeedState :=
  { s with loading := true, error := none }

/-- The post-await part of the load effect, resumed with the settled fetch
result and the value the effect's `cancelled` flag has at that moment: on
success, `if (cancelled) return` guards the append and the `hasMore`
update; on failure, `if (!cancelled)` guards the error assignment; the
`finally` clears `loading` only when not cancelled. -/
def loadResume (cancelled : Bool) (s : FeedState) (r : Except String (List NewsItem)) :
    FeedState :=
  match r with
  | Except.ok data =>
      if cancelled then s
      else { s with
              items := s.items ++ data
              hasMore := data.length == PAGE_SIZE
              loading := false }
  | Except.error msg =>
      if cancelled then s
      else { s with error := some msg, loading := false }

/-! ### Feed sessions -/

/-- The topic key a session renders under: `thread || "all"`. -/
def sessionTopic (thread : Option String) : String := orElseStr thread "all"

/-- One feed session (a single thread selection): page 1 starts with an
empty accumulated list; each settled load of the current page advances the
page, appending its items on success (`setItems(prev => [...prev,
...data])` followed by the load-more click `setPage(p => p + 1)`) and
appending nothing on failure. -/
inductive SessionRun (pH : String → Option String) (pD : String → Option Int) (now : Int)
    (token : String) (thread : Option String) : Nat → List NewsItem → Prop where
  | start : SessionRun pH pD now token thread 1 []
  | step {page : Nat} {acc data : List NewsItem} {resp : HttpResp} :
      SessionRun pH pD now token thread page acc →
      (resp.articles.getD []).length ≤ PAGE_SIZE →
      fetchGNews pH pD now token page thread resp = Except.ok data →
      SessionRun pH pD now token thread (page + 1) (acc ++ data)
  | stepErr {page : Nat} {acc : List NewsItem} {resp : HttpResp} {e : String} :
      SessionRun pH pD now token thread page acc →
      fetchGNews pH pD now token page thread resp = Except.error e →
      SessionRun pH pD now token thread (page + 1) acc

/-! ### Decimal rendering of ids -/

/-- Decimal digits of a natural number, most significant first, as the
characters `Nat.repr` produces. -/
def natChars (n : Nat) : List Char :=
  if n < 10 then [Nat.digitChar n]
  else natChars (n / 10) ++ [Nat.digitChar (n % 10)]
decreasing_by
  exact Nat.div_lt_self (by omega) (by omega)

/-! ### Concrete records used to exercise the model -/

/-- A raw article with every optional field absent. -/
def emptyArt : GNewsArticle := {}

/-- A raw article whose `url` is present, not the placeholder, and not
parseable as a URL. -/
def malformedArt : GNewsArticle := { url := some "not a url" }

/-- A raw article whose `publishedAt` is present but not a parseable date.
-/
def badDateArt : GNewsArticle := { publishedAt := some "not a date" }

/-- The display record `mapGNews` produces from `emptyArt` at absolute
index 0 under topic `all`, with `now` at epoch 0. -/
def item0 : NewsItem :=
  { id := "all-0", title := "Untitled", url := "#", favicon := "", thumbnail := none,
    comments := 0, votes := 0, age := "1h ago", thread := "all" }

/-- The display record `mapGNews` produces from `emptyArt` at absolute
index 10 under topic `all`, with `now` at epoch 0. -/
def item10 : NewsItem :=
  { id := "all-10", title := "Untitled", url := "#", favicon := "", thumbnail := none,
    comments := 0, votes := 0, age := "1h ago", thread := "all" }

/-- A feed state with one accumulated item, between loads. -/
def feed1 : FeedState :=
  { items := [item0], page := 2, loading := false, error := none, hasMore := true }

/-- A successful response carrying one article. -/
def respOk1 : HttpResp := { ok := true, status := 200, articles := some [emptyArt] }

/-- A failed response with HTTP status 500. -/
def resp500 : HttpResp := { ok := false, status := 500, articles := none }

/-- A successful response whose JSON body has no `articles` field. -/
def respNoArts : HttpResp := { ok := true, status := 200, articles := none }

/-- A date parser that maps every string to epoch 0, standing in for the
platform parser on inputs it accepts. -/
def pd0 : String → Option Int := fun _ => some 0

/-- A date parser that maps every string to `NaN`, standing in for the
platform parser on unparseable inputs. -/
def pdNaN : String → Option Int := fun _ => none

/-! ## Theorems -/

/-! ### Injectivity of the decimal rendering used in article ids -/

theorem natChars_lt {n : Nat} (h : n < 10) : natChars n = [Nat.digitChar n] := by
  rw [natChars, if_pos h]

theorem natChars_ge {n : Nat} (h : ¬ n < 10) :
    natChars n = natChars (n / 10) ++ [Nat.digitChar (n % 10)] := by
  rw [natChars]
  exact if_neg h

theorem digitChar_inj_lt10 : ∀ m, m < 10 → ∀ n, n < 10 →
    Nat.digitChar m = Nat.digitChar n → m = n := by decide

theorem natChars_ne_nil (n : Nat) : natChars n ≠ [] := by
  by_cases h : n < 10
  · rw [natChars_lt h]; simp
  · rw [natChars_ge h]; simp

theorem natChars_inj (m : Nat) : ∀ n, natChars m = natChars n → m = n := by
  induction m using Nat.strong_induction_on with
  | _ m ih =>
    intro n h
    by_cases hm : m < 10 <;> by_cases hn : n < 10
    · rw [natChars_lt hm, natChars_lt hn] at h
      simp at h
      exact digitChar_inj_lt10 m hm n hn h
    · rw [natChars_lt hm, natChars_ge hn] at h
      have hlen := congrArg List.length h
      cases hc : natChars (n / 10) with
      | nil => exact absurd hc (natChars_ne_nil (n / 10))
      | cons c cs => rw [hc] at hlen; simp at hlen
    · rw [natChars_ge hm, natChars_lt hn] at h
      have hlen := congrArg List.length h
      cases hc : natChars (m / 10) with
      | nil => exact absurd hc (natChars_ne_nil (m / 10))
      | cons c cs => rw [hc] at hlen; simp at hlen
    · rw [natChars_ge hm, natChars_ge hn] at h
      obtain ⟨h1, h2⟩ := List.append_inj' h (by simp)
      have hdiv : m / 10 = n / 10 :=
        ih (m / 10) (Nat.div_lt_self (by omega) (by omega)) (n / 10) h1
      simp at h2
      have hmod : m % 10 = n % 10 :=
        digitChar_inj_lt10 _ (Nat.mod_lt m (by omega)) _ (Nat.mod_lt n (by omega)) h2
      omega

theorem toDigitsCore_acc (b : Nat) (f : Nat) : ∀ (n : Nat) (l : List Char),
    Nat.toDigitsCore b f n l = Nat.toDigitsCore b f n [] ++ l := by
  induction f with
  | zero => intro n l; simp [Nat.toDigitsCore]
  | succ f ih =>
    intro n l
    simp only [Nat.toDigitsCore]
    by_cases h : n / b = 0
    · simp [h]
    · simp only [if_neg h]
      rw [ih (n / b) (Nat.digitChar (n % b) :: l), ih (n / b) [Nat.digitChar (n % b)]]
      simp

theorem toDigitsCore_eq_natChars (f : Nat) : ∀ n, n < f →
    Nat.toDigitsCore 10 f n [] = natChars n := by
  induction f with
  | zero => intro n h; omega
  | succ f ih =>
    intro n h
    simp only [Nat.toDigitsCore]
    by_cases h0 : n / 10 = 0
    · have hn : n < 10 := (Nat.div_eq_zero_iff (by omega)).mp h0
      rw [if_pos h0, natChars_lt hn, Nat.mod_eq_of_lt hn]
    · have hn : ¬ n < 10 := by
        intro hlt
        exact h0 ((Nat.div_eq_zero_iff (by omega)).mpr hlt)
      have hdf : n / 10 < f := by
        have h1 : n / 10 < n := Nat.div_lt_self (by omega) (by omega)
        omega
      rw [if_neg h0, toDigitsCore_acc, ih (n / 10) hdf, natChars_ge hn]

theorem repr_data_inj {m n : Nat} (h : (Nat.repr m).data = (Nat.repr n).data) : m = n := by
  have hm : (Nat.repr m).data = natChars m :=
    toDigitsCore_eq_natChars (m + 1) m (Nat.lt_succ_self m)
  have hn2 : (Nat.repr n).data = natChars n :=
    toDigitsCore_eq_natChars (n + 1) n (Nat.lt_succ_self n)
  exact natChars_inj m n (by rw [← hm, ← hn2]; exact h)

theorem id_string_inj (t : String) :
    Function.Injective (fun n : Nat => t ++ "-" ++ toString n) := by
  intro m n h
  have h2 := congrArg String.data h
  simp only [String.data_append] at h2
  exact repr_data_inj (List.append_cancel_left h2)

/-! ### Projections of successful mapper and fetch results -/

theorem mapGNews_ok_projs {pH : String → Option String} {pD : String → Option Int}
    {now : Int} {a : GNewsArticle} {idx : Nat} {topic : String} {item : NewsItem}
    (h : mapGNews pH pD now a idx topic = Except.ok item) :
    item.id = topic ++ "-" ++ toString idx ∧
    item.age = ageLabel (ageHours pD now a.publishedAt) := by
  unfold mapGNews at h
  simp only [Bind.bind] at h
  cases hd : domainOf pH ((a.source.getD {}).url.getD "") (a.url.getD "#") with
  | error e =>
    rw [hd] at h
    simp [Except.bind] at h
  | ok d =>
    rw [hd] at h
    simp only [Except.bind, Except.ok.injEq] at h
    subst h
    exact ⟨rfl, rfl⟩

theorem mapArticles_ok_ids (g : Nat → String)
    (f : GNewsArticle → Nat → Except String NewsItem)
    (hf : ∀ a j b, f a j = Except.ok b → b.id = g j) :
    ∀ (as : List GNewsArticle) (i : Nat) (bs : List NewsItem),
      mapArticles f as i = Except.ok bs →
      bs.map NewsItem.id = (List.range as.length).map (fun k => g (i + k)) := by
  intro as
  induction as with
  | nil =>
    intro i bs h
    simp [mapArticles] at h
    subst h
    simp
  | cons a as ih =>
    intro i bs h
    simp only [mapArticles] at h
    cases hfa : f a i with
    | error e => rw [hfa] at h; simp [Bind.bind, Except.bind] at h
    | ok b =>
      rw [hfa] at h
      cases hrest : mapArticles f as (i + 1) with
      | error e => rw [hrest] at h; simp [Bind.bind, Except.bind] at h
      | ok bs' =>
        rw [hrest] at h
        simp only [Bind.bind, Except.bind, Except.ok.injEq] at h
        subst h
        rw [List.length_cons, List.range_succ_eq_map]
        simp only [List.map_cons, List.map_map]
        rw [hf a i b hfa, ih (i + 1) bs' hrest]
        congr 1
        apply List.map_congr_left
        intro k _
        simp only [Function.comp]
        congr 1
        omega

theorem fetchGNews_ok_ids {pH : String → Option String} {pD : String → Option Int}
    {now : Int} {token : String} {page : Nat} {thread : Option String} {resp : HttpResp}
    {data : List NewsItem}
    (h : fetchGNews pH pD now token page thread resp = Except.ok data) :
    data.map NewsItem.id =
      (List.range (resp.articles.getD []).length).map
        (fun k => sessionTopic thread ++ "-" ++ toString ((page - 1) * PAGE_SIZE + k)) := by
  unfold fetchGNews at h
  by_cases ht : token = ""
  · rw [if_pos ht] at h; simp at h
  · rw [if_neg ht] at h
    by_cases hok : resp.ok = false
    · rw [if_pos hok] at h; simp at h
    · rw [if_neg hok] at h
      exact mapArticles_ok_ids
        (fun j => sessionTopic thread ++ "-" ++ toString j)
        (fun a i => mapGNews pH pD now a i (orElseStr thread "all"))
        (fun a j b hb => (mapGNews_ok_projs hb).1)
        (resp.articles.getD []) ((page - 1) * PAGE_SIZE) data h

theorem session_ids_indexed {pH : String → Option String} {pD : String → Option Int}
    {now : Int} {token : String} {thread : Option String} {page : Nat} {acc : List NewsItem}
    (h : SessionRun pH pD now token thread page acc) :
    1 ≤ page ∧
    ∃ idxs : List Nat,
      acc.map NewsItem.id = idxs.map (fun n => sessionTopic thread ++ "-" ++ toString n) ∧
      idxs.Pairwise (· < ·) ∧
      ∀ n ∈ idxs, n < (page - 1) * PAGE_SIZE := by
  induction h with
  | start => exact ⟨le_refl 1, [], by simp, by simp, by simp⟩
  | @step page acc data resp hrun hlen hfetch ih =>
    obtain ⟨hpage, idxs, hmap, hpw, hbound⟩ := ih
    have hdata := fetchGNews_ok_ids hfetch
    refine ⟨by omega,
      idxs ++ (List.range (resp.articles.getD []).length).map
        (fun k => (page - 1) * PAGE_SIZE + k), ?_, ?_, ?_⟩
    · rw [List.map_append, hmap, hdata, List.map_append]
      rw [List.map_map]
      rfl
    · rw [List.pairwise_append]
      refine ⟨hpw, ?_, ?_⟩
      · rw [List.pairwise_map]
        exact (List.pairwise_lt_range _).imp (by omega)
      · intro x hx y hy
        rw [List.mem_map] at hy
        obtain ⟨k, hk, rfl⟩ := hy
        have := hbound x hx
        omega
    · intro n hn
      rw [List.mem_append] at hn
      cases hn with
      | inl hl =>
        have := hbound n hl
        have hmono : (page - 1) * PAGE_SIZE ≤ (page + 1 - 1) * PAGE_SIZE :=
          Nat.mul_le_mul_right _ (by omega)
        omega
      | inr hr =>
        rw [List.mem_map] at hr
        obtain ⟨k, hk, rfl⟩ := hr
        rw [List.mem_range] at hk
        have : (page - 1) * PAGE_SIZE + PAGE_SIZE = (page + 1 - 1) * PAGE_SIZE := by
          have h1 : page + 1 - 1 = (page - 1) + 1 := by omega
          rw [h1, Nat.succ_mul]
        omega
  | @stepErr page acc resp e hrun hfetch ih =>
    obtain ⟨hpage, idxs, hmap, hpw, hbound⟩ := ih
    refine ⟨by omega, idxs, hmap, hpw, ?_⟩
    intro n hn
    have := hbound n hn
    have hmono : (page - 1) * PAGE_SIZE ≤ (page + 1 - 1) * PAGE_SIZE :=
      Nat.mul_le_mul_right _ (by omega)
    omega

/-! ### Error messages the model can produce -/

theorem network_msg_ne (x : String) : "Network " ++ x ≠ "Missing GNEWS_TOKEN env var" := by
  intro h
  have h1 : ("Network " ++ x).data.head? = some 'N' := by
    rw [String.data_append]
    rfl
  have h2 : ("Missing GNEWS_TOKEN env var" : String).data.head? = some 'M' := rfl
  rw [h, h2] at h1
  simp at h1

theorem domainOf_error {pH : String → Option String} {s u e : String}
    (h : domainOf pH s u = Except.error e) : e = "TypeError: Invalid URL" := by
  unfold domainOf at h
  split at h
  · simp at h
  · split at h
    · cases hp : pH u with
      | some v => rw [hp] at h; simp at h
      | none => rw [hp] at h; simp at h; exact h.symm
    · simp at h

theorem mapGNews_error_msg {pH : String → Option String} {pD : String → Option Int}
    {now : Int} {a : GNewsArticle} {idx : Nat} {topic : String} {e : String}
    (h : mapGNews pH pD now a idx topic = Except.error e) : e = "TypeError: Invalid URL" := by
  unfold mapGNews at h
  simp only [Bind.bind] at h
  cases hd : domainOf pH ((a.source.getD {}).url.getD "") (a.url.getD "#") with
  | error e2 =>
    rw [hd] at h
    simp only [Except.bind, Except.error.injEq] at h
    rw [← h]
    exact domainOf_error hd
  | ok d =>
    rw [hd] at h
    simp [Except.bind] at h

theorem mapArticles_error_src (f : GNewsArticle → Nat → Except String NewsItem) :
    ∀ (as : List GNewsArticle) (i : Nat) (e : String),
      mapArticles f as i = Except.error e → ∃ a j, f a j = Except.error e := by
  intro as
  induction as with
  | nil => intro i e h; simp [mapArticles] at h
  | cons a as ih =>
    intro i e h
    simp only [mapArticles] at h
    cases hfa : f a i with
    | error e2 =>
      rw [hfa] at h
      simp only [Bind.bind, Except.bind, Except.error.injEq] at h
      exact ⟨a, i, by rw [hfa, h]⟩
    | ok b =>
      rw [hfa] at h
      cases hrest : mapArticles f as (i + 1) with
      | error e2 =>
        rw [hrest] at h
        simp only [Bind.bind, Except.bind, Except.error.injEq] at h
        obtain ⟨a2, j, hj⟩ := ih (i + 1) e2 hrest
        exact ⟨a2, j, by rw [hj, h]⟩
      | ok bs =>
        rw [hrest] at h
        simp [Bind.bind, Except.bind] at h

/-- C1: once a load has been superseded (its effect's `cancelled` flag is
true when the request settles), none of the feed state is mutated by it:
the accumulated item list, `hasMore`, `error` and `loading` are left
exactly as they were, whether the fetch succeeded or failed, because the
cancellation flag is checked before each post-await mutation. -/
theorem superseded_load_discards_result (s : FeedState) (r : Except String (List NewsItem)) :
    loadResume true s r = s := by
  cases r <;> simp [loadResume]

/-- C2: the vote counter follows the six-row transition table (up-click:
none gives up with +1, up gives none with -1, down gives up with +2;
down-click: none gives down with -1, down gives none with +1, up gives
down with -2), and the four concrete click sequences from count 0 and no
direction land on (1, up), (0, none), (-1, down) and (1, up). -/
theorem vote_transition_table :
    (∀ v : Int, upClick ⟨v, VDir.null⟩ = ⟨v + 1, VDir.up⟩) ∧
    (∀ v : Int, upClick ⟨v, VDir.up⟩ = ⟨v - 1, VDir.null⟩) ∧
    (∀ v : Int, upClick ⟨v, VDir.down⟩ = ⟨v + 2, VDir.up⟩) ∧
    (∀ v : Int, downClick ⟨v, VDir.null⟩ = ⟨v - 1, VDir.down⟩) ∧
    (∀ v : Int, downClick ⟨v, VDir.down⟩ = ⟨v + 1, VDir.null⟩) ∧
    (∀ v : Int, downClick ⟨v, VDir.up⟩ = ⟨v - 2, VDir.down⟩) ∧
    upClick ⟨0, VDir.null⟩ = ⟨1, VDir.up⟩ ∧
    upClick (upClick ⟨0, VDir.null⟩) = ⟨0, VDir.null⟩ ∧
    downClick (upClick ⟨0, VDir.null⟩) = ⟨-1, VDir.down⟩ ∧
    upClick (downClick ⟨0, VDir.null⟩) = ⟨1, VDir.up⟩ := by
  refine ⟨fun v => ?_, fun v => ?_, fun v => ?_, fun v => ?_, fun v => ?_, fun v => ?_,
    by decide, by decide, by decide, by decide⟩ <;>
    simp [upClick, downClick, sub_eq_add_neg]

/-- C3 counterexample: on an article whose `url` is present, not the
placeholder, and not parseable as a URL (the `URL` constructor throws on
it, modelled by `urlHostname` returning `none`), the mapper does not
return a display record: it propagates the thrown `TypeError`, so the
claim that it never throws fails on this input. -/
theorem mapper_throws_on_malformed_url :
    mapGNews urlHostname pd0 0 malformedArt 0 "all" =
      Except.error "TypeError: Invalid URL" := rfl

/-- C3 amended: for every raw article whose `url` field is present, not
the placeholder `#`, and malformed (the host parser rejects it), and whose
`source.url` is absent or empty, the mapper throws a `TypeError` from the
`URL` constructor: domain extraction is not guarded against malformed
URLs. -/
theorem mapper_error_on_unparseable_url (pH : String → Option String)
    (pD : String → Option Int) (now : Int) (a : GNewsArticle) (idx : Nat) (topic : String)
    (hsrc : (a.source.getD {}).url.getD "" = "")
    (hurl : a.url.getD "#" ≠ "" ∧ a.url.getD "#" ≠ "#")
    (hparse : pH (a.url.getD "#") = none) :
    mapGNews pH pD now a idx topic = Except.error "TypeError: Invalid URL" := by
  unfold mapGNews
  simp only [Bind.bind]
  have hd : domainOf pH ((a.source.getD {}).url.getD "") (a.url.getD "#") =
      Except.error "TypeError: Invalid URL" := by
    unfold domainOf
    rw [if_neg (by simp [hsrc]), if_pos hurl, hparse]
  rw [hd]
  simp [Except.bind]

theorem mapper_error_on_unparseable_url_witness :
    mapGNews urlHostname pdNaN 0 malformedArt 1 "technology" =
      Except.error "TypeError: Invalid URL" :=
  mapper_error_on_unparseable_url urlHostname pdNaN 0 malformedArt 1 "technology"
    rfl (by decide) (by decide)

/-- C4: after a completed successful load, `hasMore` is false exactly when
the page just fetched held fewer than `PAGE_SIZE` (ten) articles, assuming
the page holds at most ten. -/
theorem hasMore_false_iff_short_page (s : FeedState) (data : List NewsItem)
    (h : data.length ≤ PAGE_SIZE) :
    (loadResume false s (Except.ok data)).hasMore = false ↔ data.length < PAGE_SIZE := by
  simp only [loadResume, Bool.false_eq_true, if_false]
  simp only [PAGE_SIZE] at h ⊢
  simp
  omega

theorem hasMore_false_iff_short_page_witness :
    (loadResume false feed1 (Except.ok (List.replicate 4 item0))).hasMore = false ↔
      (List.replicate 4 item0).length < PAGE_SIZE :=
  hasMore_false_iff_short_page feed1 (List.replicate 4 item0) (by decide)

/-- C5: when the fetch for the current page and thread fails with an HTTP
status, the fetch helper throws a message naming that status, and the
resumed load stores exactly that message in `error`, clears `loading`, and
leaves the accumulated item list exactly as it was before the attempt. -/
theorem fetch_error_leaves_items (s : FeedState) (pH : String → Option String)
    (pD : String → Option Int) (now : Int) (token : String) (page : Nat)
    (thread : Option String) (resp : HttpResp)
    (htok : token ≠ "") (hok : resp.ok = false) :
    fetchGNews pH pD now token page thread resp =
        Except.error ("Network " ++ toString resp.status) ∧
    (loadResume false (loadStart s) (Except.error ("Network " ++ toString resp.status))).error =
        some ("Network " ++ toString resp.status) ∧
    (loadResume false (loadStart s)
        (Except.error ("Network " ++ toString resp.status))).loading = false ∧
    (loadResume false (loadStart s) (Except.error ("Network " ++ toString resp.status))).items =
        s.items := by
  refine ⟨?_, ?_, ?_, ?_⟩
  · simp [fetchGNews, htok, hok]
  all_goals simp [loadResume, loadStart]

theorem fetch_error_leaves_items_witness :
    fetchGNews urlHostname pd0 0 defaultToken 2 none resp500 =
        Except.error "Network 500" ∧
    (loadResume false (loadStart feed1) (Except.error "Network 500")).error =
        some "Network 500" ∧
    (loadResume false (loadStart feed1) (Except.error "Network 500")).loading = false ∧
    (loadResume false (loadStart feed1) (Except.error "Network 500")).items = feed1.items :=
  fetch_error_leaves_items feed1 urlHostname pd0 0 defaultToken 2 none resp500
    (by decide) rfl

/-- C6: a change of the selected thread resets the accumulated article
list to empty, the page counter to 1, and `hasMore` to true, whatever the
prior feed state was. -/
theorem thread_change_resets (s : FeedState) :
    (threadReset s).items = [] ∧ (threadReset s).page = 1 ∧ (threadReset s).hasMore = true :=
  ⟨rfl, rfl, rfl⟩

/-- C7 counterexample: on an article whose `publishedAt` is present but
not parseable as a date (`new Date` yields `NaN`, modelled by `pdNaN`),
the mapper produces the age label `NaNh ago`: the hour count is `NaN`, not
an integer greater than or equal to 1, so the claim fails for unparseable
date strings. -/
theorem mapper_nan_age_on_unparseable_date :
    mapGNews urlHostname pdNaN 0 badDateArt 3 "all" =
      Except.ok { id := "all-3", title := "Untitled", url := "#", favicon := "",
                  thumbnail := none, comments := 0, votes := 0, age := "NaNh ago",
                  thread := "all" } := rfl

/-- C7 amended: whenever the publish timestamp evaluates to an actual
number — `publishedAt` absent (defaulting to now) or parseable, including
future dates — the produced age label's hour count is exactly
`max(1, round((now - publishedAt) / 1 hour))`, an integer at least 1; an
unparseable `publishedAt` instead yields a `NaN` hour count. -/
theorem mapper_age_is_floored_hours (pH : String → Option String) (pD : String → Option Int)
    (now t : Int) (a : GNewsArticle) (idx : Nat) (topic : String) (item : NewsItem)
    (hok : mapGNews pH pD now a idx topic = Except.ok item)
    (ht : pubTime pD now a.publishedAt = some t) :
    item.age = toString (max 1 (jsRoundHours (now - t))) ++ "h ago" ∧
    1 ≤ max 1 (jsRoundHours (now - t)) := by
  refine ⟨?_, le_max_left 1 _⟩
  rw [(mapGNews_ok_projs hok).2]
  simp [ageHours, ht, ageLabel]

theorem mapper_age_is_floored_hours_witness :
    item0.age = toString (max 1 (jsRoundHours ((0 : Int) - 0))) ++ "h ago" ∧
    1 ≤ max 1 (jsRoundHours ((0 : Int) - 0)) :=
  mapper_age_is_floored_hours urlHostname pd0 0 0 emptyArt 0 "all" item0 rfl rfl

/-- C8: within one feed session (pages loaded in order, list reset by the
thread change that began the session), the ids of all accumulated display
records are pairwise distinct: each id is the session topic joined by a
dash to a sequential index `(page - 1) * PAGE_SIZE + position`, and no two
appended pages share an index, provided every fetched page holds at most
`PAGE_SIZE` articles. -/
theorem session_ids_distinct (pH : String → Option String) (pD : String → Option Int)
    (now : Int) (token : String) (thread : Option String) (page : Nat) (acc : List NewsItem)
    (h : SessionRun pH pD now token thread page acc) :
    (acc.map NewsItem.id).Nodup ∧
    ∃ idxs : List Nat, idxs.Nodup ∧
      acc.map NewsItem.id = idxs.map (fun n => sessionTopic thread ++ "-" ++ toString n) := by
  obtain ⟨-, idxs, hmap, hpw, -⟩ := session_ids_indexed h
  have hnd : idxs.Nodup := hpw.imp fun hlt => Nat.ne_of_lt hlt
  refine ⟨?_, idxs, hnd, hmap⟩
  rw [hmap]
  exact List.Nodup.map (id_string_inj (sessionTopic thread)) hnd

theorem session_ids_distinct_witness :
    (((([] : List NewsItem) ++ [item0]) ++ [item10]).map NewsItem.id).Nodup ∧
    ∃ idxs : List Nat, idxs.Nodup ∧
      ((([] : List NewsItem) ++ [item0]) ++ [item10]).map NewsItem.id =
        idxs.map (fun n => sessionTopic none ++ "-" ++ toString n) :=
  session_ids_distinct urlHostname pd0 0 defaultToken none 3 (([] ++ [item0]) ++ [item10])
    (@SessionRun.step urlHostname pd0 0 defaultToken none 2 ([] ++ [item0]) [item10] respOk1
      (@SessionRun.step urlHostname pd0 0 defaultToken none 1 [] [item0] respOk1
        SessionRun.start (by decide) rfl)
      (by decide) rfl)

/-- C9: the fetch helper fails with the configuration error exactly when
its resolved credential is empty, and the resolution of the credential
from the two environment slots falls back to the hardcoded default when
both are absent and therefore never yields an empty token (so the
configuration-error path can in fact never fire). -/
theorem config_error_iff_no_token :
    (∀ (pH : String → Option String) (pD : String → Option Int) (now : Int) (token : String)
       (page : Nat) (thread : Option String) (resp : HttpResp),
       fetchGNews pH pD now token page thread resp =
           Except.error "Missing GNEWS_TOKEN env var"
         ↔ token = "") ∧
    GNEWS_TOKEN none none = defaultToken ∧
    (∀ envA envB : Option String, GNEWS_TOKEN envA envB ≠ "") := by
  refine ⟨?_, rfl, ?_⟩
  · intro pH pD now token page thread resp
    constructor
    · intro h
      by_contra htok
      unfold fetchGNews at h
      rw [if_neg htok] at h
      by_cases hok : resp.ok = false
      · rw [if_pos hok] at h
        injection h with h2
        exact network_msg_ne (toString resp.status) h2
      · rw [if_neg hok] at h
        obtain ⟨a, j, hj⟩ := mapArticles_error_src _ _ _ _ h
        have := mapGNews_error_msg hj
        simp at this
    · intro h
      simp [fetchGNews, h]
  · intro envA envB
    unfold GNEWS_TOKEN orElseStr defaultToken
    cases envA with
    | none =>
      cases envB with
      | none => simp
      | some b => by_cases hb : b = "" <;> simp [hb]
    | some a =>
      by_cases ha : a = ""
      · cases envB with
        | none => simp [ha]
        | some b => by_cases hb : b = "" <;> simp [ha, hb]
      · simp [ha]

theorem config_error_iff_no_token_witness :
    fetchGNews urlHostname pd0 0 "" 1 none respOk1 =
      Except.error "Missing GNEWS_TOKEN env var" :=
  (config_error_iff_no_token.1 urlHostname pd0 0 "" 1 none respOk1).mpr rfl

/-- C10: a successful response whose JSON body has no `articles` field
makes the fetch helper return the empty list rather than raise, and the
resumed load appends nothing (the accumulated list is unchanged) and sets
`hasMore` to false. -/
theorem missing_articles_empty_list (pH : String → Option String) (pD : String → Option Int)
    (now : Int) (token : String) (page : Nat) (thread : Option String) (resp : HttpResp)
    (s : FeedState)
    (htok : token ≠ "") (hok : resp.ok = true) (harts : resp.articles = none) :
    fetchGNews pH pD now token page thread resp = Except.ok [] ∧
    (loadResume false (loadStart s) (Except.ok [])).items = s.items ∧
    (loadResume false (loadStart s) (Except.ok [])).hasMore = false := by
  refine ⟨?_, ?_, ?_⟩
  · simp [fetchGNews, htok, hok, harts, mapArticles]
  · simp [loadResume, loadStart]
  · simp [loadResume, loadStart, PAGE_SIZE]

theorem missing_articles_empty_list_witness :
    fetchGNews urlHostname pd0 0 defaultToken 3 (some "world") respNoArts = Except.ok [] ∧
    (loadResume false (loadStart feed1) (Except.ok [])).items = feed1.items ∧
    (loadResume false (loadStart feed1) (Except.ok [])).hasMore = false :=
  missing_articles_empty_list urlHostname pd0 0 defaultToken 3 (some "world") respNoArts feed1
    (by decide) rfl rfl
